import Mathlib

/-!
Shallow embedding of the Rose City check-in dashboard's synchronization and
roster logic (src/src/App.js, src/unnamed/part_000, src/unnamed/part_001).

Modelling conventions:
* A person record is its CSV fields (an association list from header name to
  cell string) plus the booleans the code attaches at ingestion time.  A JS
  field that was never attached (`undefined`) is modelled as `false` for the
  boolean flags, which is observationally equivalent for every boolean read
  the code performs.
* JS array indices are `Int`: `findIndex` can return `-1`.  An operation that
  would throw a `TypeError` in JS (reading `.checkedIn` of `undefined` after
  an out-of-bounds access) returns `none`; `some` is normal completion.
* `localStorage` is an association list from string keys to stored values;
  JSON (de)serialisation of values the app itself wrote is treated as the
  identity round-trip.
* `Date.now()` is passed in explicitly as a `now : Nat` argument.
* External I/O results (Firebase snapshot reads, localStorage reads, CSV file
  reads, remote write success) are passed in as `Option`/`Bool` arguments.
-/

/-- A raw CSV record as produced by the parsing collaborator: header name to
cell value. -/
structure RawRecord where
  fields : List (String × String)
deriving DecidableEq, Repr

/-- A roster entry: the CSV fields plus the booleans attached at ingestion
time.  `shirtProvided` is the flag of part_000, `shirtDistributed` the flag
of App.js; a variant that never attaches one of them leaves it `false`
(JS `undefined` is falsy). -/
structure Person where
  fields : List (String × String)
  checkedIn : Bool
  shirtProvided : Bool
  shirtDistributed : Bool
deriving DecidableEq, Repr

/-- JS `p.Name`: the value of the "Name" CSV field, `none` when absent
(`undefined`). -/
def Person.jsName (p : Person) : Option String :=
  p.fields.lookup "Name"

/-- CSV ingestion tagging of part_000 `loadData` (participants):
`{ ...p, checkedIn: false, shirtProvided: false }`. -/
def tagParticipantCSV (r : RawRecord) : Person :=
  { fields := r.fields, checkedIn := false, shirtProvided := false,
    shirtDistributed := false }

/-- CSV ingestion tagging of part_000 `loadData` (staff):
`{ ...s, checkedIn: false, shirtProvided: s['Shirt Needed'] === 'No' }`. -/
def tagStaffCSV (r : RawRecord) : Person :=
  { fields := r.fields, checkedIn := false,
    shirtProvided := r.fields.lookup "Shirt Needed" == some "No",
    shirtDistributed := false }

/-- CSV ingestion tagging of part_001 `checkServerData`:
`{ ...p, checkedIn: false }` (no shirt flag is attached). -/
def tagRecordCSV (r : RawRecord) : Person :=
  { fields := r.fields, checkedIn := false, shirtProvided := false,
    shirtDistributed := false }

/-- CSV ingestion tagging of App.js `loadFromCSV`:
`{ ...p, checkedIn: false, shirtDistributed: false }`. -/
def tagRecordAppJs (r : RawRecord) : Person :=
  { fields := r.fields, checkedIn := false, shirtProvided := false,
    shirtDistributed := false }

/-- `updated[index].checkedIn = !updated[index].checkedIn` at one index. -/
def flipCheckedIn (p : Person) : Person :=
  { p with checkedIn := !p.checkedIn }

/-- `toggleStatus` of App.js / part_001 restricted to one collection:
copy the array, flip `checkedIn` at `index`, store the copy.  `none` models
the `TypeError` thrown when `updated[index]` is `undefined` (negative or
out-of-bounds index); the caller's state is then left unchanged because the
`set` call is never reached. -/
def toggleStatus (l : List Person) (index : Int) : Option (List Person) :=
  if index < 0 then
    none
  else
    match l.get? index.toNat with
    | some p => some (l.set index.toNat (flipCheckedIn p))
    | none => none

/-- `toggleParticipantShirtStatus` of part_000: flip `shirtProvided` at
`index`, unconditionally (no `checkedIn` guard in the data layer). -/
def toggleParticipantShirtStatus (l : List Person) (index : Int) :
    Option (List Person) :=
  if index < 0 then
    none
  else
    match l.get? index.toNat with
    | some p => some (l.set index.toNat { p with shirtProvided := !p.shirtProvided })
    | none => none

/-- `toggleStaffShirtStatus` of part_000: flip `shirtProvided` at `index`
only when the record's 'Shirt Needed' field is 'Yes'; otherwise `setStaff`
is not called and the collection is unchanged. -/
def toggleStaffShirtStatus (l : List Person) (index : Int) :
    Option (List Person) :=
  if index < 0 then
    none
  else
    match l.get? index.toNat with
    | some p =>
        if p.fields.lookup "Shirt Needed" == some "Yes" then
          some (l.set index.toNat { p with shirtProvided := !p.shirtProvided })
        else
          some l
    | none => none

/-- `findIndex(p => p.Name === name)` over a collection, `-1` on a miss. -/
def findIndexByName (l : List Person) (name : String) : Int :=
  match l.findIdx? (fun p => p.jsName == some name) with
  | some i => (i : Int)
  | none => -1

/-- The guarded check-in path of part_000's and part_001's dashboards:
`const personIndex = list.findIndex(p => p.Name === person.Name);
if (personIndex !== -1) toggleStatus(..., personIndex);`.
On a miss the toggle is skipped and the collection is returned unchanged. -/
def checkInByNameGuarded (l : List Person) (name : String) : List Person :=
  let personIndex := findIndexByName l name
  if personIndex != -1 then
    (toggleStatus l personIndex).getD l
  else
    l

/-- The unguarded check-in path of App.js's `PersonListItem`:
`toggleStatus(type, personIndex)` is invoked with the raw `findIndex`
result, without checking it against `-1`. -/
def checkInByNameUnguarded (l : List Person) (name : String) :
    Option (List Person) :=
  toggleStatus l (findIndexByName l name)

/-- The whole-roster document that is pushed, pulled and persisted. -/
structure Snapshot where
  participants : List Person
  staff : List Person
  timestamp : Nat
deriving DecidableEq, Repr

/-- The in-memory sync state of one client instance: the two collections,
`lastSync` (`none` is JS `null`), and the `isLoaded` flag. -/
structure SyncState where
  participants : List Person
  staff : List Person
  lastSync : Option Nat
  isLoaded : Bool
deriving DecidableEq, Repr

/-- The React initial state: empty collections, `lastSync` null, not
loaded. -/
def initialState : SyncState :=
  { participants := [], staff := [], lastSync := none, isLoaded := false }

/-- JS truthiness of the `lastSync` value: `!lastSync` is true when it is
`null` or `0`. -/
def tsFalsy : Option Nat → Bool
  | none => true
  | some t => t == 0

/-- A value held in `localStorage`: either one serialised collection (the
`_participants` / `_staff` keys) or one serialised whole-roster snapshot
(the combined key). -/
inductive CacheVal where
  | coll (people : List Person)
  | snap (s : Snapshot)
deriving DecidableEq, Repr

/-- The durable local cache (`localStorage`): keys to stored values. -/
abbrev LocalCache := List (String × CacheVal)

/-- `localStorage.setItem`: replace any previous binding of `key`. -/
def setItem (c : LocalCache) (key : String) (v : CacheVal) : LocalCache :=
  (key, v) :: c.filter (fun e => e.1 != key)

/-- `localStorage.removeItem`. -/
def removeItem (c : LocalCache) (key : String) : LocalCache :=
  c.filter (fun e => e.1 != key)

/-- `localStorage.getItem`: `none` is JS `null` (key absent). -/
def getItem (c : LocalCache) (key : String) : Option CacheVal :=
  c.lookup key

/-- App.js local-cache key for the participants collection. -/
def participantsKey : String := "RoseCityCheckin_participants"

/-- App.js local-cache key for the staff collection. -/
def staffKey : String := "RoseCityCheckin_staff"

/-- part_001 local-cache key for the participants collection. -/
def part001ParticipantsKey : String := "roseCity_participants"

/-- part_001 local-cache key for the staff collection. -/
def part001StaffKey : String := "roseCity_staff"

/-- part_001 combined snapshot key (`STORAGE_KEY = 'roseCityData_v1'`). -/
def STORAGE_KEY : String := "roseCityData_v1"

/-- Read part_001's combined snapshot key and parse it, as the head of
`checkServerData` does. -/
def readCloud (cache : LocalCache) : Option Snapshot :=
  match getItem cache STORAGE_KEY with
  | some (.snap s) => some s
  | _ => none

/-- Read a saved pair of collections from two cache keys; JS requires both:
`if (savedParticipants && savedStaff)`. -/
def readSaved (cache : LocalCache) (pk sk : String) :
    Option (List Person × List Person) :=
  match getItem cache pk, getItem cache sk with
  | some (.coll ps), some (.coll st) => some (ps, st)
  | _, _ => none

/-- The second phase of part_001's `checkServerData`: when no newer cloud
snapshot was adopted, bootstrap once (`if (!isLoaded)`) from the saved local
keys or from CSV, then `setIsLoaded(true)` and push via `syncToCloud`, whose
success (`syncOk`) advances `lastSync` to `now`.  `csv = none` models
`window.fs.readFile` throwing: the surrounding catch then ends the call with
no state change. -/
def checkServerLocalPhase (s : SyncState)
    (saved : Option (List Person × List Person))
    (csv : Option (List RawRecord × List RawRecord))
    (now : Nat) (syncOk : Bool) : SyncState :=
  if s.isLoaded then
    s
  else
    match saved with
    | some (ps, st) =>
        { participants := ps, staff := st,
          lastSync := if syncOk then some now else s.lastSync, isLoaded := true }
    | none =>
        match csv with
        | some (cp, cs) =>
            { participants := cp.map tagRecordCSV, staff := cs.map tagRecordCSV,
              lastSync := if syncOk then some now else s.lastSync, isLoaded := true }
        | none => s

/-- part_001 `checkServerData`: if the combined cloud key holds a snapshot
and `!lastSync || parsedData.timestamp > lastSync`, adopt it wholesale and
return; otherwise fall through to the one-time local/CSV bootstrap. -/
def checkServerData (s : SyncState) (cloud : Option Snapshot)
    (saved : Option (List Person × List Person))
    (csv : Option (List RawRecord × List RawRecord))
    (now : Nat) (syncOk : Bool) : SyncState :=
  match cloud with
  | some parsedData =>
      if tsFalsy s.lastSync || parsedData.timestamp > s.lastSync.getD 0 then
        { participants := parsedData.participants, staff := parsedData.staff,
          lastSync := some parsedData.timestamp, isLoaded := true }
      else
        checkServerLocalPhase s saved csv now syncOk
  | none => checkServerLocalPhase s saved csv now syncOk

/-- The App.js realtime `onValue` callback in `loadData`: whenever the
remote document is non-null it is adopted unconditionally — collections
replaced, `lastSync := data.timestamp || Date.now()`, `isLoaded := true` —
with no comparison against the current `lastSync`.  When the remote is null
it falls back to `loadFromCSV` (which attaches the App.js ingestion flags
and sets `isLoaded`, but not `lastSync`); a CSV read error is caught and
leaves the state unchanged. -/
def onValueHandler (s : SyncState) (data : Option Snapshot)
    (csv : Option (List RawRecord × List RawRecord)) (now : Nat) : SyncState :=
  match data with
  | some d =>
      { participants := d.participants, staff := d.staff,
        lastSync := some (if d.timestamp == 0 then now else d.timestamp),
        isLoaded := true }
  | none =>
      match csv with
      | some (cp, cs) =>
          { s with participants := cp.map tagRecordAppJs,
                   staff := cs.map tagRecordAppJs, isLoaded := true }
      | none => s

/-- App.js `loadLocalData`: use the two saved cache keys when both are
present, else `loadFromCSV`; a CSV read error is caught and leaves the
state unchanged. -/
def loadLocalData (s : SyncState)
    (saved : Option (List Person × List Person))
    (csv : Option (List RawRecord × List RawRecord)) : SyncState :=
  match saved with
  | some (ps, st) =>
      { s with participants := ps, staff := st, isLoaded := true }
  | none =>
      match csv with
      | some (cp, cs) =>
          { s with participants := cp.map tagRecordAppJs,
                   staff := cs.map tagRecordAppJs, isLoaded := true }
      | none => s

/-- The outcome of one App.js `syncToFirebase` call: the cache and remote
document afterwards, the resulting `lastSync`, and the returned boolean. -/
structure SyncOutcome where
  cache : LocalCache
  remote : Option Snapshot
  lastSync : Option Nat
  returned : Bool
deriving DecidableEq, Repr

/-- App.js `syncToFirebase`: with no database handle, only the two cache
keys are written and `false` is returned.  Otherwise the cache keys are
written first, then the remote document; only when that remote write
succeeds is `lastSync` advanced to the captured timestamp and `true`
returned — a remote failure is caught (`return false`) after the cache was
already written, leaving `lastSync` as it was. -/
def syncToFirebase (dbPresent : Bool) (remoteWriteOk : Bool)
    (cache : LocalCache) (remote : Option Snapshot) (lastSync : Option Nat)
    (participantsData staffData : List Person) (now : Nat) : SyncOutcome :=
  if !dbPresent then
    { cache := setItem (setItem cache participantsKey (.coll participantsData))
                 staffKey (.coll staffData),
      remote := remote, lastSync := lastSync, returned := false }
  else
    let cache' := setItem (setItem cache participantsKey (.coll participantsData))
                    staffKey (.coll staffData)
    if remoteWriteOk then
      { cache := cache',
        remote := some { participants := participantsData, staff := staffData,
                         timestamp := now },
        lastSync := some now, returned := true }
    else
      { cache := cache', remote := remote, lastSync := lastSync,
        returned := false }

/-- The App.js reset button: remove the two cache keys and, when the
database handle exists, overwrite the remote document with null.  (With no
handle there is no remote document to clear.) -/
def resetAppJs (cache : LocalCache) (dbPresent : Bool)
    (remote : Option Snapshot) : LocalCache × Option Snapshot :=
  (removeItem (removeItem cache participantsKey) staffKey,
   if dbPresent then none else remote)

/-- The part_001 reset button: remove both collection keys and the combined
snapshot key. -/
def resetPart001 (cache : LocalCache) : LocalCache :=
  removeItem (removeItem (removeItem cache part001ParticipantsKey)
    part001StaffKey) STORAGE_KEY

/-- Boolean contiguous-subsequence test: does `needle` occur inside the
second list?  (JS `String.prototype.includes` on the character sequences.) -/
def containsSeq (needle : List Char) : List Char → Bool
  | [] => needle.isPrefixOf []
  | c :: rest => needle.isPrefixOf (c :: rest) || containsSeq needle rest

/-- JS `s.toLowerCase()` as a character sequence: lower-case every
character. -/
def jsToLower (s : String) : List Char :=
  s.toList.map Char.toLower

/-- JS `hay.toLowerCase().includes(needle.toLowerCase())`: case-insensitive
substring containment. -/
def jsIncludesCI (hay needle : String) : Bool :=
  containsSeq (jsToLower needle) (jsToLower hay)

/-- The App.js search predicate
`p.Name && p.Name.toLowerCase().includes(searchQuery.toLowerCase())`:
the record's Name must be present and truthy (non-empty). -/
def nameMatchesQuery (q : String) (p : Person) : Bool :=
  match p.jsName with
  | some n => n != "" && jsIncludesCI n q
  | none => false

/-- App.js `filteredParticipants` / `filteredStaff`: a pure filter of one
collection by the search query. -/
def filteredByName (l : List Person) (q : String) : List Person :=
  l.filter (nameMatchesQuery q)

/-- JS truthiness of `p.Name` alone (the `p.Name &&` guard). -/
def hasTruthyName (p : Person) : Bool :=
  match p.jsName with
  | some n => n != ""
  | none => false

/-- One observable operation of a running client instance, with its external
inputs made explicit. -/
inductive ClientOp where
  | pollTick (cloud : Option Snapshot) (saved : Option (List Person × List Person))
      (csv : Option (List RawRecord × List RawRecord)) (now : Nat) (syncOk : Bool)
  | remoteEvent (data : Option Snapshot)
      (csv : Option (List RawRecord × List RawRecord)) (now : Nat)
  | localLoad (saved : Option (List Person × List Person))
      (csv : Option (List RawRecord × List RawRecord))
  | toggle (isParticipant : Bool) (index : Int)
  | shirtToggleParticipant (index : Int)
  | shirtToggleStaff (index : Int)
  | syncOut (dbPresent remoteWriteOk : Bool) (now : Nat)
deriving DecidableEq, Repr

/-- The effect of one operation on the in-memory sync state.  A toggle whose
index misses throws in JS before any `setState` call, so the state is
unchanged; an outbound sync only advances `lastSync`, and only when the
remote write succeeded. -/
def applyOp (s : SyncState) (op : ClientOp) : SyncState :=
  match op with
  | .pollTick cloud saved csv now syncOk => checkServerData s cloud saved csv now syncOk
  | .remoteEvent data csv now => onValueHandler s data csv now
  | .localLoad saved csv => loadLocalData s saved csv
  | .toggle true i =>
      match toggleStatus s.participants i with
      | some l => { s with participants := l }
      | none => s
  | .toggle false i =>
      match toggleStatus s.staff i with
      | some l => { s with staff := l }
      | none => s
  | .shirtToggleParticipant i =>
      match toggleParticipantShirtStatus s.participants i with
      | some l => { s with participants := l }
      | none => s
  | .shirtToggleStaff i =>
      match toggleStaffShirtStatus s.staff i with
      | some l => { s with staff := l }
      | none => s
  | .syncOut dbPresent remoteWriteOk now =>
      if dbPresent && remoteWriteOk then { s with lastSync := some now } else s

/-! ## Helper lemmas -/

/-- Setting an index back to the element it already holds is the identity. -/
theorem set_self_of_get? {α : Type _} {l : List α} {n : Nat} {a : α}
    (h : l.get? n = some a) : l.set n a = l := by
  apply List.ext_getElem?
  intro m
  rw [List.get?_eq_getElem?] at h
  rcases eq_or_ne n m with rfl | hne
  · rw [List.getElem?_set_self (by
      rcases List.getElem?_eq_some_iff.mp h with ⟨hlt, _⟩
      exact hlt)]
    exact h.symm
  · exact List.getElem?_set_ne hne

/-- A natural-number index is never negative, so `toggleStatus` at `(i : Int)`
reduces to a lookup at `i`. -/
theorem toggleStatus_natIndex (l : List Person) (i : Nat) :
    toggleStatus l (i : Int) =
      match l.get? i with
      | some p => some (l.set i (flipCheckedIn p))
      | none => none := by
  rw [toggleStatus, if_neg (by omega)]
  norm_num

/-- Flipping `checkedIn` twice restores the record. -/
theorem flipCheckedIn_flipCheckedIn (p : Person) :
    flipCheckedIn (flipCheckedIn p) = p := by
  cases p
  simp [flipCheckedIn]

/-- One successful `toggleStatus` undoes another at the same index. -/
theorem toggleStatus_involutive {l l2 : List Person} {i : Int}
    (h : toggleStatus l i = some l2) : toggleStatus l2 i = some l := by
  unfold toggleStatus at h ⊢
  by_cases hi : i < 0
  · simp [hi] at h
  · simp only [hi, if_false] at h ⊢
    cases hg : l.get? i.toNat with
    | none => rw [hg] at h; simp at h
    | some p =>
      rw [hg] at h
      simp only [Option.some.injEq] at h
      subst h
      have hlt : i.toNat < l.length := by
        rw [List.get?_eq_getElem?] at hg
        exact (List.getElem?_eq_some_iff.mp hg).1
      rw [List.get?_eq_getElem?, List.getElem?_set_self (by simpa using hlt)]
      simp only [List.set_set, flipCheckedIn_flipCheckedIn]
      rw [set_self_of_get? hg]

/-- Reading a key that `removeItem` just removed gives `null`. -/
theorem getItem_removeItem_self (c : LocalCache) (k : String) :
    getItem (removeItem c k) k = none := by
  induction c with
  | nil => rfl
  | cons e t ih =>
    obtain ⟨k1, v1⟩ := e
    by_cases he : k1 = k
    · simpa [removeItem, List.filter_cons, he] using ih
    · have hb : (k1 != k) = true := by simpa using he
      have hk : (k == k1) = false := by simpa using (Ne.symm he)
      simpa [removeItem, List.filter_cons, hb, getItem, List.lookup, hk] using ih

/-- Removing one key leaves the others readable. -/
theorem getItem_removeItem_ne (c : LocalCache) {k k' : String} (h : k' ≠ k) :
    getItem (removeItem c k) k' = getItem c k' := by
  induction c with
  | nil => rfl
  | cons e t ih =>
    obtain ⟨k1, v1⟩ := e
    by_cases he : k1 = k
    · have hk : (k' == k1) = false := by simpa using (he ▸ h)
      have hk' : (k' == k) = false := by simpa using h
      simpa [removeItem, List.filter_cons, he, getItem, List.lookup, hk, hk'] using ih
    · have hb : (k1 != k) = true := by simpa using he
      by_cases hk : k' = k1
      · simp [removeItem, List.filter_cons, hb, getItem, List.lookup, hk]
      · have hk2 : (k' == k1) = false := by simpa using hk
        simpa [removeItem, List.filter_cons, hb, getItem, List.lookup, hk2] using ih

/-- Reading the key `setItem` just wrote gives the new value. -/
theorem getItem_setItem_self (c : LocalCache) (k : String) (v : CacheVal) :
    getItem (setItem c k v) k = some v := by
  simp [getItem, setItem, List.lookup]

/-- Writing one key leaves the others unchanged. -/
theorem getItem_setItem_ne (c : LocalCache) {k k' : String} (v : CacheVal)
    (h : k' ≠ k) : getItem (setItem c k v) k' = getItem c k' := by
  simp only [getItem, setItem, List.lookup, show (k' == k) = false by simpa using h]
  exact getItem_removeItem_ne c h

/-! ## Concrete fixtures used by witnesses and counterexamples -/

/-- A checked-in participant named Alice. -/
def alice : Person :=
  { fields := [("Name", "Alice")], checkedIn := true, shirtProvided := false,
    shirtDistributed := false }

/-- A not-checked-in participant named Bob who needs a shirt. -/
def bob : Person :=
  { fields := [("Name", "Bob"), ("Shirt Needed", "Yes")], checkedIn := false,
    shirtProvided := false, shirtDistributed := false }

/-- A loaded local state that last synced at timestamp 100. -/
def localState : SyncState :=
  { participants := [alice], staff := [], lastSync := some 100, isLoaded := true }

/-- An inbound candidate snapshot with the strictly older timestamp 50. -/
def staleCand : Snapshot := { participants := [], staff := [], timestamp := 50 }

/-! ## C9: the check-in toggle is an involution -/

/-- C9 (confirmed): for every client state, collection selector and index —
in particular every valid index — applying the check-in toggle twice at the
same index returns both the participants and the staff collection (indeed
the whole in-memory state) to exactly the original value.  An index that
misses throws before any state update, so the double application is also the
identity there. -/
theorem c9_toggle_involution :
    ∀ (s : SyncState) (isParticipant : Bool) (index : Int),
      applyOp (applyOp s (.toggle isParticipant index)) (.toggle isParticipant index) = s := by
  intro s isP i
  cases isP
  · simp only [applyOp]
    cases h : toggleStatus s.staff i with
    | none => simp [h]
    | some l2 => simp [h, toggleStatus_involutive h]
  · simp only [applyOp]
    cases h : toggleStatus s.participants i with
    | none => simp [h]
    | some l2 => simp [h, toggleStatus_involutive h]

/-! ## C10: the check-in toggle has no effect beyond the target's checkedIn -/

/-- C10 (confirmed): a check-in toggle at a valid index of one collection
leaves the other collection, `lastSync` and `isLoaded` unchanged, leaves
every other record of the addressed collection unchanged, and changes the
target record only in its `checkedIn` field (its CSV fields and both shirt
flags are preserved). -/
theorem c10_toggle_frame :
    ∀ (s : SyncState) (i : Nat) (p : Person),
      (s.participants.get? i = some p →
        (applyOp s (.toggle true (i : Int))).staff = s.staff ∧
        (applyOp s (.toggle true (i : Int))).lastSync = s.lastSync ∧
        (applyOp s (.toggle true (i : Int))).isLoaded = s.isLoaded ∧
        (∀ j, j ≠ i →
          (applyOp s (.toggle true (i : Int))).participants.get? j =
            s.participants.get? j) ∧
        (applyOp s (.toggle true (i : Int))).participants.get? i =
          some { fields := p.fields, checkedIn := !p.checkedIn,
                 shirtProvided := p.shirtProvided,
                 shirtDistributed := p.shirtDistributed }) ∧
      (s.staff.get? i = some p →
        (applyOp s (.toggle false (i : Int))).participants = s.participants ∧
        (applyOp s (.toggle false (i : Int))).lastSync = s.lastSync ∧
        (applyOp s (.toggle false (i : Int))).isLoaded = s.isLoaded ∧
        (∀ j, j ≠ i →
          (applyOp s (.toggle false (i : Int))).staff.get? j =
            s.staff.get? j) ∧
        (applyOp s (.toggle false (i : Int))).staff.get? i =
          some { fields := p.fields, checkedIn := !p.checkedIn,
                 shirtProvided := p.shirtProvided,
                 shirtDistributed := p.shirtDistributed }) := by
  intro s i p
  constructor
  · intro h
    rw [List.get?_eq_getElem?] at h
    have hlt : i < s.participants.length := (List.getElem?_eq_some_iff.mp h).1
    have happ : applyOp s (.toggle true (i : Int)) =
        { s with participants := s.participants.set i (flipCheckedIn p) } := by
      simp [applyOp, toggleStatus_natIndex, h]
    rw [happ]
    refine ⟨rfl, rfl, rfl, ?_, ?_⟩
    · intro j hj
      simp [List.getElem?_set_ne (Ne.symm hj)]
    · simp only [List.get?_eq_getElem?, List.getElem?_set_self hlt]
      rfl
  · intro h
    rw [List.get?_eq_getElem?] at h
    have hlt : i < s.staff.length := (List.getElem?_eq_some_iff.mp h).1
    have happ : applyOp s (.toggle false (i : Int)) =
        { s with staff := s.staff.set i (flipCheckedIn p) } := by
      simp [applyOp, toggleStatus_natIndex, h]
    rw [happ]
    refine ⟨rfl, rfl, rfl, ?_, ?_⟩
    · intro j hj
      simp [List.getElem?_set_ne (Ne.symm hj)]
    · simp only [List.get?_eq_getElem?, List.getElem?_set_self hlt]
      rfl

/-! ## C1: reconciliation policy on the inbound paths -/

/-- C1 counterexample: with local `lastSync = 100` and an inbound candidate
at timestamp 50 — strictly older, so the claim demands KEEP_LOCAL on every
inbound path — the App.js realtime listener nevertheless adopts the
candidate: the participants collection is replaced and `lastSync` drops to
50. -/
theorem c1_realtime_adopts_stale_counterexample :
    ¬ staleCand.timestamp > 100 ∧ localState.lastSync = some 100 ∧
    localState.isLoaded = true ∧
    (onValueHandler localState (some staleCand) none 999).participants ≠
      localState.participants ∧
    (onValueHandler localState (some staleCand) none 999).lastSync = some 50 := by
  decide

/-- C1 (corrected): the polling reconciler `checkServerData` is
last-writer-wins — once loaded, it adopts an inbound candidate wholesale
(collections replaced in full, `lastSync` set to the candidate's timestamp)
when the candidate's timestamp is strictly greater than `lastSync` or the
local state has never been synced (`lastSync` null, or zero by JS
falsiness), and otherwise leaves the in-memory state entirely unchanged.
The App.js realtime listener, however, adopts every non-null candidate
unconditionally, replacing both collections and `lastSync` with the
candidate's values regardless of any timestamp comparison. -/
theorem c1_reconcile_lww_amended :
    ∀ (s : SyncState) (c : Snapshot)
      (saved : Option (List Person × List Person))
      (csv : Option (List RawRecord × List RawRecord)) (now : Nat) (syncOk : Bool),
      s.isLoaded = true →
      ((s.lastSync = none ∨ s.lastSync = some 0 ∨
          (∃ t, s.lastSync = some t ∧ c.timestamp > t)) →
        checkServerData s (some c) saved csv now syncOk =
          { participants := c.participants, staff := c.staff,
            lastSync := some c.timestamp, isLoaded := true }) ∧
      ((∃ t, s.lastSync = some t ∧ 0 < t ∧ c.timestamp ≤ t) →
        checkServerData s (some c) saved csv now syncOk = s) ∧
      (onValueHandler s (some c) csv now).participants = c.participants ∧
      (onValueHandler s (some c) csv now).staff = c.staff ∧
      (onValueHandler s (some c) csv now).lastSync =
        some (if c.timestamp == 0 then now else c.timestamp) ∧
      (onValueHandler s (some c) csv now).isLoaded = true := by
  intro s c saved csv now syncOk hloaded
  refine ⟨?_, ?_, rfl, rfl, rfl, rfl⟩
  · intro hcond
    rcases hcond with h0 | h0 | ⟨t, ht, hgt⟩
    · simp [checkServerData, tsFalsy, h0]
    · simp [checkServerData, tsFalsy, h0]
    · simp [checkServerData, tsFalsy, ht, hgt]
  · rintro ⟨t, ht, hpos, hle⟩
    have hne : t ≠ 0 := Nat.pos_iff_ne_zero.mp hpos
    simp [checkServerData, checkServerLocalPhase, tsFalsy, ht, hne,
      Nat.not_lt.mpr hle, hloaded]

/-- C1 witness: at the concrete loaded state with `lastSync = 100` and the
candidate at timestamp 50, the polling reconciler keeps the local state. -/
theorem c1_reconcile_lww_witness :
    localState.isLoaded = true ∧
    checkServerData localState (some staleCand) none none 999 true = localState :=
  ⟨rfl,
    (c1_reconcile_lww_amended localState staleCand none none 999 true rfl).2.1
      ⟨100, rfl, by decide, by decide⟩⟩

/-! ## C2: outbound push failure -/

/-- C2 counterexample: at a concrete state, a failed remote push leaves
`lastSync` at its old value 10 — it does not advance to the new timestamp 20
as the claim requires — even though the cache was updated and the failure
was swallowed. -/
theorem c2_lastSync_not_advanced_counterexample :
    (syncToFirebase true false [] none (some 10) [alice] [] 20).lastSync = some 10 ∧
    (syncToFirebase true false [] none (some 10) [alice] [] 20).lastSync ≠ some 20 ∧
    getItem (syncToFirebase true false [] none (some 10) [alice] [] 20).cache
      participantsKey = some (.coll [alice]) ∧
    getItem (syncToFirebase true false [] none (some 10) [alice] [] 20).cache
      staffKey = some (.coll []) ∧
    (syncToFirebase true false [] none (some 10) [alice] [] 20).returned = false := by
  decide

/-- C2 (corrected): when the remote push fails, the durable local cache
still contains the latest snapshot (both collections just pushed) and the
failure is caught — `false` is returned instead of an exception propagating —
but `lastSync` does NOT advance: it is updated only after a successful
remote write, so on failure it keeps its previous value (and the remote
document is also unchanged). -/
theorem c2_sync_failure_amended :
    ∀ (cache : LocalCache) (remote : Option Snapshot) (lastSync : Option Nat)
      (ps st : List Person) (now : Nat),
      getItem (syncToFirebase true false cache remote lastSync ps st now).cache
        participantsKey = some (.coll ps) ∧
      getItem (syncToFirebase true false cache remote lastSync ps st now).cache
        staffKey = some (.coll st) ∧
      (syncToFirebase true false cache remote lastSync ps st now).lastSync
        = lastSync ∧
      (syncToFirebase true false cache remote lastSync ps st now).remote
        = remote ∧
      (syncToFirebase true false cache remote lastSync ps st now).returned
        = false := by
  intro cache remote ls ps st now
  have hks : participantsKey ≠ staffKey := by decide
  refine ⟨?_, ?_, rfl, rfl, rfl⟩
  · rw [show (syncToFirebase true false cache remote ls ps st now).cache =
        setItem (setItem cache participantsKey (.coll ps)) staffKey (.coll st)
        from rfl]
    rw [getItem_setItem_ne _ _ hks, getItem_setItem_self]
  · rw [show (syncToFirebase true false cache remote ls ps st now).cache =
        setItem (setItem cache participantsKey (.coll ps)) staffKey (.coll st)
        from rfl]
    rw [getItem_setItem_self]

/-! ## C3: toggle request for an absent name -/

/-- C3 counterexample: for the roster `[alice]` and the absent name
"Zzz-nonexistent", the App.js `PersonListItem` request path passes the raw
`findIndex` result `-1` to `toggleStatus`, which throws a `TypeError`
(`none`) — the miss is not a silent no-op on this path. -/
theorem c3_unguarded_miss_throws_counterexample :
    (∀ p ∈ [alice], p.jsName ≠ some "Zzz-nonexistent") ∧
    checkInByNameUnguarded [alice] "Zzz-nonexistent" = none := by
  decide

/-- C3 (corrected): a check-in toggle requested for a name matching no
record never changes the collections, but whether an error is raised
depends on the path: the guarded dashboards (part_000, part_001) check the
lookup result against `-1` and silently no-op, while App.js's
`PersonListItem` passes the raw `findIndex` result to `toggleStatus`, so on
a miss the `-1` index makes the toggle throw a `TypeError` (still before
any state update). -/
theorem c3_toggle_miss_amended :
    ∀ (l : List Person) (name : String),
      (∀ p ∈ l, p.jsName ≠ some name) →
      checkInByNameGuarded l name = l ∧
      checkInByNameUnguarded l name = none := by
  intro l name hmiss
  have hfind : l.findIdx? (fun p => p.jsName == some name) = none := by
    rw [List.findIdx?_eq_none_iff]
    intro p hp
    simpa using hmiss p hp
  constructor
  · simp [checkInByNameGuarded, findIndexByName, hfind]
  · simp [checkInByNameUnguarded, findIndexByName, hfind, toggleStatus]

/-- C3 witness: the amended statement at the concrete roster `[alice]` and
the absent name. -/
theorem c3_toggle_miss_witness :
    (∀ p ∈ [alice], p.jsName ≠ some "Zzz-missing") ∧
    (checkInByNameGuarded [alice] "Zzz-missing" = [alice] ∧
     checkInByNameUnguarded [alice] "Zzz-missing" = none) :=
  ⟨by decide, c3_toggle_miss_amended [alice] "Zzz-missing" (by decide)⟩

/-! ## C4: shirt toggle and the check-in precondition -/

/-- C4 counterexample: Bob is not checked in (`checkedIn = false`), yet the
data-layer shirt toggles flip his `shirtProvided` flag from `false` to
`true` — for the participant toggle unconditionally, and for the staff
toggle because his 'Shirt Needed' field is 'Yes'.  The data layer does not
no-op on a not-checked-in person. -/
theorem c4_shirt_toggle_counterexample :
    bob.checkedIn = false ∧
    toggleParticipantShirtStatus [bob] 0 =
      some [{ fields := bob.fields, checkedIn := false, shirtProvided := true,
              shirtDistributed := false }] ∧
    toggleStaffShirtStatus [bob] 0 =
      some [{ fields := bob.fields, checkedIn := false, shirtProvided := true,
              shirtDistributed := false }] := by
  decide

/-- C4 (corrected): the data-layer shirt toggles never consult `checkedIn`.
At any valid index the participant toggle always flips `shirtProvided`, and
the staff toggle flips it exactly when the record's 'Shirt Needed' field is
'Yes' (otherwise it no-ops) — regardless of the person's check-in state.
The `checkedIn = false` precondition is enforced only by the UI layer's
disabled button, not by these operations. -/
theorem c4_shirt_toggle_amended :
    ∀ (l : List Person) (i : Nat) (p : Person),
      l.get? i = some p →
      toggleParticipantShirtStatus l (i : Int) =
        some (l.set i { p with shirtProvided := !p.shirtProvided }) ∧
      toggleStaffShirtStatus l (i : Int) =
        some (if p.fields.lookup "Shirt Needed" == some "Yes"
              then l.set i { p with shirtProvided := !p.shirtProvided }
              else l) := by
  intro l i p h
  have hnat : ((i : Int)).toNat = i := by omega
  constructor
  · rw [toggleParticipantShirtStatus, if_neg (by omega), hnat, h]
  · rw [toggleStaffShirtStatus, if_neg (by omega), hnat, h]
    cases hc : (p.fields.lookup "Shirt Needed" == some "Yes") <;> simp [hc]

/-- C4 witness: the amended statement at the concrete roster `[bob]`,
index 0. -/
theorem c4_shirt_toggle_witness :
    [bob].get? 0 = some bob ∧
    (toggleParticipantShirtStatus [bob] ((0 : Nat) : Int) =
        some ([bob].set 0 { bob with shirtProvided := !bob.shirtProvided }) ∧
     toggleStaffShirtStatus [bob] ((0 : Nat) : Int) =
        some (if bob.fields.lookup "Shirt Needed" == some "Yes"
              then [bob].set 0 { bob with shirtProvided := !bob.shirtProvided }
              else [bob])) :=
  ⟨rfl, c4_shirt_toggle_amended [bob] 0 bob rfl⟩

/-! ## C5: CSV bootstrap defaults -/

/-- C5 (confirmed): every record ingested by the part_000 CSV bootstrap
carries `checkedIn = false`; participants additionally carry
`shirtProvided = false`, and a staff record carries `shirtProvided = true`
exactly when its 'Shirt Needed' field equals 'No' (false otherwise,
including when the field is absent). -/
theorem c5_bootstrap_defaults :
    ∀ (rawParticipants rawStaff : List RawRecord) (p q : Person),
      p ∈ rawParticipants.map tagParticipantCSV →
      q ∈ rawStaff.map tagStaffCSV →
      p.checkedIn = false ∧ p.shirtProvided = false ∧
      q.checkedIn = false ∧
      (q.shirtProvided = true ↔ q.fields.lookup "Shirt Needed" = some "No") := by
  intro rp rs p q hp hq
  rcases List.mem_map.mp hp with ⟨r, _, rfl⟩
  rcases List.mem_map.mp hq with ⟨r2, _, rfl⟩
  refine ⟨rfl, rfl, rfl, ?_⟩
  simp [tagStaffCSV]

/-- A raw staff record whose 'Shirt Needed' field is 'No'. -/
def rawCarol : RawRecord :=
  { fields := [("Name", "Carol"), ("Shirt Needed", "No")] }

/-- A raw participant record. -/
def rawDana : RawRecord := { fields := [("Name", "Dana")] }

/-- C5 witness: the bootstrap defaults at one concrete participant and one
concrete staff record. -/
theorem c5_bootstrap_defaults_witness :
    (tagParticipantCSV rawDana).checkedIn = false ∧
    (tagParticipantCSV rawDana).shirtProvided = false ∧
    (tagStaffCSV rawCarol).checkedIn = false ∧
    ((tagStaffCSV rawCarol).shirtProvided = true ↔
      (tagStaffCSV rawCarol).fields.lookup "Shirt Needed" = some "No") :=
  c5_bootstrap_defaults [rawDana] [rawCarol] (tagParticipantCSV rawDana)
    (tagStaffCSV rawCarol) (by decide) (by decide)

/-! ## C6: isLoaded is monotone -/

/-- One step of any client operation preserves a true `isLoaded`: every
state-changing path either leaves the flag alone or sets it to true. -/
theorem applyOp_isLoaded_mono (s : SyncState) (op : ClientOp)
    (h : s.isLoaded = true) : (applyOp s op).isLoaded = true := by
  cases op with
  | pollTick cloud saved csv now syncOk =>
      rcases cloud with _ | c
      · simp [applyOp, checkServerData, checkServerLocalPhase, h]
      · simp only [applyOp, checkServerData]
        split
        · rfl
        · simp [checkServerLocalPhase, h]
  | remoteEvent data csv now =>
      rcases data with _ | d
      · rcases csv with _ | ⟨cp, cs⟩ <;> simp [applyOp, onValueHandler, h]
      · simp [applyOp, onValueHandler]
  | localLoad saved csv =>
      rcases saved with _ | ⟨ps, st⟩
      · rcases csv with _ | ⟨cp, cs⟩ <;> simp [applyOp, loadLocalData, h]
      · simp [applyOp, loadLocalData]
  | toggle isP i =>
      cases isP
      · simp only [applyOp]
        cases h2 : toggleStatus s.staff i <;> simp [h2, h]
      · simp only [applyOp]
        cases h2 : toggleStatus s.participants i <;> simp [h2, h]
  | shirtToggleParticipant i =>
      simp only [applyOp]
      cases h2 : toggleParticipantShirtStatus s.participants i <;> simp [h2, h]
  | shirtToggleStaff i =>
      simp only [applyOp]
      cases h2 : toggleStaffShirtStatus s.staff i <;> simp [h2, h]
  | syncOut dbPresent remoteWriteOk now =>
      simp only [applyOp]
      split <;> simp [h]

/-- C6 (confirmed): `isLoaded` never reverts.  Along any trace of client
operations (inbound snapshots, poll ticks, local loads, toggles, outbound
syncs with or without failures), once `isLoaded` is true after some prefix
it is still true after any continuation — so starting from the initial
false state it flips to true at most once and never back. -/
theorem c6_isLoaded_monotone :
    ∀ (pre post : List ClientOp) (s : SyncState),
      (pre.foldl applyOp s).isLoaded = true →
      ((pre ++ post).foldl applyOp s).isLoaded = true := by
  intro pre post s h
  rw [List.foldl_append]
  generalize pre.foldl applyOp s = t at h ⊢
  induction post generalizing t with
  | nil => simpa using h
  | cons op rest ih =>
      rw [List.foldl_cons]
      exact ih _ (applyOp_isLoaded_mono _ _ h)

/-- C6 witness: after a bootstrap event `isLoaded` is true, and it stays
true across a subsequent toggle. -/
theorem c6_isLoaded_monotone_witness :
    (([ClientOp.remoteEvent (some staleCand) none 5]).foldl applyOp
        initialState).isLoaded = true ∧
    ((([ClientOp.remoteEvent (some staleCand) none 5]) ++
        [ClientOp.toggle true 0]).foldl applyOp initialState).isLoaded = true :=
  ⟨by decide,
    c6_isLoaded_monotone [ClientOp.remoteEvent (some staleCand) none 5]
      [ClientOp.toggle true 0] initialState (by decide)⟩

/-! ## C7: reset clears every cache key and the remote document -/

/-- C7 (confirmed): after the App.js reset (with a live database handle)
both of its cache keys are absent and the remote document is null; after the
part_001 reset its two collection keys and the combined snapshot key are all
absent.  A subsequent load then falls through to CSV bootstrap: the App.js
realtime handler, seeing the cleared (null) remote, bootstraps from CSV,
and part_001's `checkServerData`, reading the cleared cache, finds neither
a cloud snapshot nor saved collections and bootstraps from CSV. -/
theorem c7_reset_clears :
    ∀ (cache : LocalCache) (remote : Option Snapshot)
      (cp cs : List RawRecord) (now : Nat) (syncOk : Bool),
      getItem (resetAppJs cache true remote).1 participantsKey = none ∧
      getItem (resetAppJs cache true remote).1 staffKey = none ∧
      (resetAppJs cache true remote).2 = none ∧
      getItem (resetPart001 cache) part001ParticipantsKey = none ∧
      getItem (resetPart001 cache) part001StaffKey = none ∧
      getItem (resetPart001 cache) STORAGE_KEY = none ∧
      onValueHandler initialState (resetAppJs cache true remote).2
          (some (cp, cs)) now =
        { participants := cp.map tagRecordAppJs, staff := cs.map tagRecordAppJs,
          lastSync := none, isLoaded := true } ∧
      checkServerData initialState (readCloud (resetPart001 cache))
          (readSaved (resetPart001 cache) part001ParticipantsKey part001StaffKey)
          (some (cp, cs)) now syncOk =
        { participants := cp.map tagRecordCSV, staff := cs.map tagRecordCSV,
          lastSync := if syncOk then some now else none, isLoaded := true } := by
  intro cache remote cp cs now syncOk
  have hpk : getItem (resetAppJs cache true remote).1 participantsKey = none := by
    rw [show (resetAppJs cache true remote).1 =
        removeItem (removeItem cache participantsKey) staffKey from rfl]
    rw [getItem_removeItem_ne _ (by decide), getItem_removeItem_self]
  have hsk : getItem (resetAppJs cache true remote).1 staffKey = none := by
    rw [show (resetAppJs cache true remote).1 =
        removeItem (removeItem cache participantsKey) staffKey from rfl]
    rw [getItem_removeItem_self]
  have h001p : getItem (resetPart001 cache) part001ParticipantsKey = none := by
    rw [resetPart001, getItem_removeItem_ne _ (by decide),
      getItem_removeItem_ne _ (by decide), getItem_removeItem_self]
  have h001s : getItem (resetPart001 cache) part001StaffKey = none := by
    rw [resetPart001, getItem_removeItem_ne _ (by decide),
      getItem_removeItem_self]
  have h001k : getItem (resetPart001 cache) STORAGE_KEY = none := by
    rw [resetPart001, getItem_removeItem_self]
  have hcloud : readCloud (resetPart001 cache) = none := by
    rw [readCloud, h001k]
  have hsaved : readSaved (resetPart001 cache) part001ParticipantsKey
      part001StaffKey = none := by
    rw [readSaved, h001p]
  refine ⟨hpk, hsk, rfl, h001p, h001s, h001k, rfl, ?_⟩
  rw [hcloud, hsaved]
  simp [checkServerData, checkServerLocalPhase, initialState]

/-! ## C8: the name filter is a pure, exact, case-insensitive search -/

/-- An empty needle occurs in every haystack (JS `includes('')` is always
true). -/
theorem containsSeq_nil_needle (l : List Char) : containsSeq [] l = true := by
  cases l <;> simp [containsSeq, List.isPrefixOf]

/-- C8 (confirmed): the search filter is a pure read — its output is a
sublist of the collection, which it never modifies — containing exactly the
records whose (present, truthy) Name holds the query as a case-insensitive
substring; and with the empty query it returns exactly the records that
have a Name. -/
theorem c8_filter_pure :
    ∀ (l : List Person) (q : String),
      (filteredByName l q).Sublist l ∧
      (∀ p, p ∈ filteredByName l q ↔ p ∈ l ∧ nameMatchesQuery q p = true) ∧
      filteredByName l "" = l.filter hasTruthyName := by
  intro l q
  refine ⟨List.filter_sublist _, fun p => List.mem_filter, ?_⟩
  unfold filteredByName
  congr 1
  funext p
  unfold nameMatchesQuery hasTruthyName jsIncludesCI jsToLower
  cases hp : p.jsName with
  | none => rfl
  | some n => simp [containsSeq_nil_needle]
